import Mathlib

/-!
Shallow embedding of `src/trust/strategies/scmi.py` (class `SCMI`, method
`select`).  Python dictionary values are modelled by `ConfigVal`; the external
collaborators (embedding extraction from the `Strategy` base class, the
`submodlib` kernel builder, objective constructors and maximizer) are modelled
as an abstract environment `Env` of pure functions, and every call made to
them is recorded in an event trace so that statements about the order of
expensive work are expressible.  Python exceptions are modelled by
`Except PyError`; the mutable instance fields set by `keep_embedding` are
modelled by explicit state passing on the `SCMI` record.
-/

/-- A Python value stored in the `args` configuration dictionary: a string, a
number (floats are modelled by rationals; no claim depends on float rounding),
or a boolean. -/
inductive ConfigVal where
  | str (s : String)
  | num (q : Rat)
  | bool (b : Bool)
deriving DecidableEq

/-- Python truthiness of a configuration value, as used by `if(keep_embedding):`
on line 150 of `scmi.py`. -/
def ConfigVal.truthy : ConfigVal → Bool
  | .str s => s ≠ ""
  | .num q => q ≠ 0
  | .bool b => b

/-- The `args` dictionary of the strategy: a finite mapping from option names
to values, modelled as an association list (first binding wins). -/
structure Config where
  entries : List (String × ConfigVal)
deriving DecidableEq

/-- Dictionary lookup: `args[k]` when present, `none` otherwise
(`'k' in self.args` is `(c.get? k).isSome`). -/
def Config.get? (c : Config) (k : String) : Option ConfigVal :=
  (c.entries.find? (fun p => p.1 = k)).map (fun p => p.2)

/-- The idiom `self.args[k] if k in self.args else d` used on lines 125-137
and 177 of `scmi.py`. -/
def Config.getD (c : Config) (k : String) (d : ConfigVal) : ConfigVal :=
  (c.get? k).getD d

/-- A dataset, identified by a tag and carrying its number of examples.  The
contents of examples only flow into the external embedding provider, so they
are not modelled further. -/
structure Dataset where
  id : Nat
  size : Nat
deriving DecidableEq

/-- An embedding matrix: its row count and an opaque tag standing for the
numeric contents (which flow only into external kernel construction). -/
structure Emb where
  rows : Nat
  tag : Nat
deriving DecidableEq

/-- A similarity kernel produced by `submodlib.helper.create_kernel`; its
numeric contents are opaque to the orchestration code. -/
structure Kernel where
  tag : Nat
deriving DecidableEq

/-- An objective object returned by a `submodlib` objective constructor.  It
records the ground-set size `n` it was constructed over, plus an opaque tag. -/
structure Obj where
  groundSetSize : Nat
  tag : Nat
deriving DecidableEq

/-- The keyword arguments of
`submodlib.FacilityLocationConditionalMutualInformationFunction`
(lines 167-174 of `scmi.py`). -/
structure FLParams where
  n : Nat
  num_queries : Nat
  num_privates : Nat
  data_sijs : Kernel
  query_sijs : Kernel
  private_sijs : Kernel
  magnificationEta : ConfigVal
  privacyHardness : ConfigVal
deriving DecidableEq

/-- The keyword arguments of
`submodlib.LogDeterminantConditionalMutualInformationFunction`
(lines 178-189 of `scmi.py`). -/
structure LDParams where
  n : Nat
  num_queries : Nat
  num_privates : Nat
  data_sijs : Kernel
  query_sijs : Kernel
  private_sijs : Kernel
  query_query_sijs : Kernel
  private_private_sijs : Kernel
  query_private_sijs : Kernel
  magnificationEta : ConfigVal
  privacyHardness : ConfigVal
  lambdaVal : ConfigVal
deriving DecidableEq

/-- The Python exceptions the orchestration code itself can raise:
`ValueError` (line 148), `KeyError` (dictionary access on line 158), and
`UnboundLocalError` (reading a local variable that no branch assigned:
`query_query_sijs` on line 184, `obj` on line 191). -/
inductive PyError where
  | valueError (msg : String)
  | keyError (key : String)
  | unboundLocalError (name : String)
deriving DecidableEq

/-- One observable call to an external collaborator, with the arguments the
orchestration code passed to it. -/
inductive Event where
  | gradEmbed (dataset : Dataset) (unlabeled : Bool) (gradType : ConfigVal)
  | featEmbed (dataset : Dataset) (unlabeled : Bool) (layer_name : ConfigVal)
  | kernelCall (x : Emb) (xRep : Option Emb) (metric : ConfigVal)
  | flcmiCtor (p : FLParams)
  | logdetcmiCtor (p : LDParams)
  | maximizeCall (budget : Nat)
      (optimizer stopIfZeroGain stopIfNegativeGain verbose : ConfigVal)
deriving DecidableEq

/-- The external collaborators consumed by `SCMI.select`:
`Strategy.get_grad_embedding` / `Strategy.get_feature_embedding` (inherited
from the base class), `submodlib.helper.create_kernel`, the two objective
constructors, and `obj.maximize`. -/
structure Env where
  get_grad_embedding : Dataset → Bool → ConfigVal → Emb
  get_feature_embedding : Dataset → Bool → ConfigVal → Emb
  create_kernel : Emb → Option Emb → ConfigVal → Kernel
  flcmiFn : FLParams → Obj
  logdetcmiFn : LDParams → Obj
  maximize : Obj → Nat →
      ConfigVal → ConfigVal → ConfigVal → ConfigVal → List (Nat × Rat)

/-- The state of an `SCMI` strategy instance: the datasets and `args` given at
construction, plus the three instance fields optionally assigned on lines
150-153 of `scmi.py` (absent until first assigned). -/
structure SCMI where
  labeled_dataset : Dataset
  unlabeled_dataset : Dataset
  query_dataset : Dataset
  private_dataset : Dataset
  args : Config
  unlabeled_data_embedding : Option Emb
  query_embedding : Option Emb
  private_embedding : Option Emb
deriving DecidableEq

deriving instance DecidableEq for Except

/-- The outcome of one call to `select`: the returned list of indices or the
exception raised, the instance state after the call (mutations made before an
exception persist, as in Python), and the trace of external calls made. -/
structure SelectResult where
  result : Except PyError (List Nat)
  state : SCMI
  trace : List Event
deriving DecidableEq

/-- Lines 150-153 of `scmi.py`: assign the three instance fields when
`keep_embedding` is truthy, otherwise leave the instance untouched. -/
def retainEmbeddings (s : SCMI) (keep_embedding : ConfigVal)
    (unlabeled_data_embedding query_embedding private_embedding : Emb) :
    SCMI :=
  if keep_embedding.truthy then
    { s with unlabeled_data_embedding := some unlabeled_data_embedding,
             private_embedding := some private_embedding,
             query_embedding := some query_embedding }
  else s

/-- Lines 150-194 of `scmi.py`: everything after the embeddings are computed.
`tr` is the trace of the embedding calls already made. -/
def selectBody (env : Env) (s : SCMI) (budget : Nat)
    (optimizer metric eta nu stopIfZeroGain stopIfNegativeGain verbose
      keep_embedding : ConfigVal)
    (unlabeled_data_embedding query_embedding private_embedding : Emb)
    (tr : List Event) : SelectResult :=
  -- lines 150-153: optionally retain the embeddings on the instance
  let s1 := retainEmbeddings s keep_embedding
    unlabeled_data_embedding query_embedding private_embedding
  -- line 156: unlabeled-unlabeled kernel, always computed
  let data_sijs := env.create_kernel unlabeled_data_embedding none metric
  let tr1 := tr ++ [Event.kernelCall unlabeled_data_embedding none metric]
  -- line 158: direct dictionary access `self.args['scmi_function']`
  match s.args.get? "scmi_function" with
  | none =>
      { result := Except.error (PyError.keyError "scmi_function"),
        state := s1, trace := tr1 }
  | some scmiFn =>
      -- lines 158-161: extra kernels, guarded by the misspelled `logdetmi`
      let extras : Option (Kernel × Kernel × Kernel) :=
        if scmiFn = ConfigVal.str "logdetmi" then
          some (env.create_kernel query_embedding none metric,
                env.create_kernel private_embedding none metric,
                env.create_kernel private_embedding (some query_embedding)
                  metric)
        else none
      let tr2 := if scmiFn = ConfigVal.str "logdetmi" then
          tr1 ++ [Event.kernelCall query_embedding none metric,
                  Event.kernelCall private_embedding none metric,
                  Event.kernelCall private_embedding (some query_embedding)
                    metric]
        else tr1
      -- lines 163-164: query-unlabeled and private-unlabeled kernels
      let query_sijs :=
        env.create_kernel query_embedding (some unlabeled_data_embedding)
          metric
      let private_sijs :=
        env.create_kernel private_embedding (some unlabeled_data_embedding)
          metric
      let tr3 := tr2 ++
        [Event.kernelCall query_embedding (some unlabeled_data_embedding)
           metric,
         Event.kernelCall private_embedding (some unlabeled_data_embedding)
           metric]
      -- lines 166-174: facility-location variant
      if scmiFn = ConfigVal.str "flcmi" then
        let p : FLParams :=
          { n := unlabeled_data_embedding.rows,
            num_queries := query_embedding.rows,
            num_privates := private_embedding.rows,
            data_sijs := data_sijs, query_sijs := query_sijs,
            private_sijs := private_sijs,
            magnificationEta := eta, privacyHardness := nu }
        let obj := env.flcmiFn p
        -- lines 191-194: maximize and extract the indices
        let greedyList := env.maximize obj budget optimizer stopIfZeroGain
          stopIfNegativeGain verbose
        { result := Except.ok (greedyList.map Prod.fst), state := s1,
          trace := tr3 ++ [Event.flcmiCtor p,
            Event.maximizeCall budget optimizer stopIfZeroGain
              stopIfNegativeGain verbose] }
      -- lines 176-189: log-determinant variant
      else if scmiFn = ConfigVal.str "logdetcmi" then
        let lambdaVal := s.args.getD "lambdaVal" (ConfigVal.num 1)
        match extras with
        | none =>
            -- `query_query_sijs` was never assigned (guard checks `logdetmi`)
            { result :=
                Except.error (PyError.unboundLocalError "query_query_sijs"),
              state := s1, trace := tr3 }
        | some (query_query_sijs, private_private_sijs, query_private_sijs) =>
            let p : LDParams :=
              { n := unlabeled_data_embedding.rows,
                num_queries := query_embedding.rows,
                num_privates := private_embedding.rows,
                data_sijs := data_sijs, query_sijs := query_sijs,
                private_sijs := private_sijs,
                query_query_sijs := query_query_sijs,
                private_private_sijs := private_private_sijs,
                query_private_sijs := query_private_sijs,
                magnificationEta := eta, privacyHardness := nu,
                lambdaVal := lambdaVal }
            let obj := env.logdetcmiFn p
            let greedyList := env.maximize obj budget optimizer stopIfZeroGain
              stopIfNegativeGain verbose
            { result := Except.ok (greedyList.map Prod.fst), state := s1,
              trace := tr3 ++ [Event.logdetcmiCtor p,
                Event.maximizeCall budget optimizer stopIfZeroGain
                  stopIfNegativeGain verbose] }
      else
        -- neither branch assigned `obj`: line 191 raises UnboundLocalError
        { result := Except.error (PyError.unboundLocalError "obj"),
          state := s1, trace := tr3 }

/-- `SCMI.select` (lines 109-194 of `scmi.py`): resolve the configuration with
defaults, compute the three embeddings, then run `selectBody`. -/
def SCMI.select (env : Env) (s : SCMI) (budget : Nat) : SelectResult :=
  -- lines 125-137: hyperparameters with defaults
  let optimizer := s.args.getD "optimizer" (ConfigVal.str "NaiveGreedy")
  let metric := s.args.getD "metric" (ConfigVal.str "cosine")
  let eta := s.args.getD "eta" (ConfigVal.num 1)
  let nu := s.args.getD "nu" (ConfigVal.num 1)
  let gradType := s.args.getD "gradType" (ConfigVal.str "bias_linear")
  let stopIfZeroGain := s.args.getD "stopIfZeroGain" (ConfigVal.bool false)
  let stopIfNegativeGain :=
    s.args.getD "stopIfNegativeGain" (ConfigVal.bool false)
  let verbose := s.args.getD "verbose" (ConfigVal.bool false)
  let embedding_type := s.args.getD "embedding_type" (ConfigVal.str "gradients")
  let keep_embedding := s.args.getD "keep_embedding" (ConfigVal.bool false)
  -- lines 139-148: compute the embeddings, or fail on an unsupported type
  if embedding_type = ConfigVal.str "gradients" then
    let unlabeled_data_embedding :=
      env.get_grad_embedding s.unlabeled_dataset true gradType
    let query_embedding := env.get_grad_embedding s.query_dataset false gradType
    let private_embedding :=
      env.get_grad_embedding s.private_dataset false gradType
    selectBody env s budget optimizer metric eta nu stopIfZeroGain
      stopIfNegativeGain verbose keep_embedding
      unlabeled_data_embedding query_embedding private_embedding
      [Event.gradEmbed s.unlabeled_dataset true gradType,
       Event.gradEmbed s.query_dataset false gradType,
       Event.gradEmbed s.private_dataset false gradType]
  else if embedding_type = ConfigVal.str "features" then
    let layer_name := s.args.getD "layer_name" (ConfigVal.str "avgpool")
    let unlabeled_data_embedding :=
      env.get_feature_embedding s.unlabeled_dataset true layer_name
    let query_embedding :=
      env.get_feature_embedding s.query_dataset false layer_name
    let private_embedding :=
      env.get_feature_embedding s.private_dataset false layer_name
    selectBody env s budget optimizer metric eta nu stopIfZeroGain
      stopIfNegativeGain verbose keep_embedding
      unlabeled_data_embedding query_embedding private_embedding
      [Event.featEmbed s.unlabeled_dataset true layer_name,
       Event.featEmbed s.query_dataset false layer_name,
       Event.featEmbed s.private_dataset false layer_name]
  else
    { result := Except.error (PyError.valueError
        "Provided representation must be one of gradients or features"),
      state := s, trace := [] }

/-- A concrete environment used to instantiate the theorems on explicit
inputs: each embedding has one row per example, kernel tags are derived from
the inputs, and the maximizer greedily returns the first `min budget n`
indices, each paired with a zero marginal gain. -/
def env0 : Env where
  get_grad_embedding := fun d _ _ => { rows := d.size, tag := d.id }
  get_feature_embedding := fun d _ _ => { rows := d.size, tag := 100 + d.id }
  create_kernel := fun x xRep _ =>
    { tag := x.tag + 1000 * ((xRep.map Emb.tag).getD 0) }
  flcmiFn := fun p => { groundSetSize := p.n, tag := 1 }
  logdetcmiFn := fun p => { groundSetSize := p.n, tag := 2 }
  maximize := fun o b _ _ _ _ =>
    (List.range (min b o.groundSetSize)).map (fun i => (i, (0 : Rat)))

/-- Concrete labeled dataset for instantiations. -/
def dsLabeled : Dataset := { id := 0, size := 4 }

/-- Concrete unlabeled dataset for instantiations. -/
def dsUnlabeled : Dataset := { id := 1, size := 5 }

/-- Concrete query dataset for instantiations. -/
def dsQuery : Dataset := { id := 2, size := 3 }

/-- Concrete private dataset for instantiations. -/
def dsPrivate : Dataset := { id := 3, size := 2 }

/-- A freshly constructed strategy instance over the concrete datasets with
the given `args` entries. -/
def mkSCMI (c : List (String × ConfigVal)) : SCMI :=
  { labeled_dataset := dsLabeled, unlabeled_dataset := dsUnlabeled,
    query_dataset := dsQuery, private_dataset := dsPrivate,
    args := { entries := c },
    unlabeled_data_embedding := none, query_embedding := none,
    private_embedding := none }

/-- Modelled from the spec: `Strategy.get_grad_embedding` and
`Strategy.get_feature_embedding` belong to this repository but are not under
`src/`; spec section 3 states the invariant "embedding row count for a dataset
equals that dataset size". -/
def EmbeddingRowsSpec (env : Env) : Prop :=
  ∀ d u g, (env.get_grad_embedding d u g).rows = d.size ∧
    (env.get_feature_embedding d u g).rows = d.size

/-- Modelled from the spec: the external `submodlib` objective constructor is
opaque; the objective it returns ranges over a ground set of size `n`, the
first keyword argument passed on line 167. -/
def ObjectiveGroundSpec (env : Env) : Prop :=
  ∀ p, (env.flcmiFn p).groundSetSize = p.n

/-- Modelled from the spec: the external `submodlib` maximizer "picks up to
budget indices" (spec section 2) satisfying the selection-result invariants of
spec section 3: length at most the budget, no repeated index, every index a
valid ground-set index. -/
def MaximizerSpec (env : Env) : Prop :=
  ∀ o b opt z ng vb,
    ((env.maximize o b opt z ng vb).map Prod.fst).length ≤ b ∧
    ((env.maximize o b opt z ng vb).map Prod.fst).Nodup ∧
    ∀ i ∈ (env.maximize o b opt z ng vb).map Prod.fst, i < o.groundSetSize

/-- With `scmi_function` absent from `args`, the body stops with a `KeyError`
right after the unlabeled-unlabeled kernel. -/
theorem selectBody_absent (env : Env) (s : SCMI) (b : Nat)
    (opt met eta nu z ng vb keep : ConfigVal) (eU eQ eP : Emb)
    (tr : List Event)
    (hf : s.args.get? "scmi_function" = none) :
    selectBody env s b opt met eta nu z ng vb keep eU eQ eP tr =
      { result := Except.error (PyError.keyError "scmi_function"),
        state := retainEmbeddings s keep eU eQ eP,
        trace := tr ++ [Event.kernelCall eU none met] } := by
  simp [selectBody, hf]

/-- With `scmi_function` set to `flcmi`, the body builds the three base
kernels, constructs the facility-location objective, maximizes, and returns
the first components of the maximizer output. -/
theorem selectBody_flcmi (env : Env) (s : SCMI) (b : Nat)
    (opt met eta nu z ng vb keep : ConfigVal) (eU eQ eP : Emb)
    (tr : List Event)
    (hf : s.args.get? "scmi_function" = some (ConfigVal.str "flcmi")) :
    selectBody env s b opt met eta nu z ng vb keep eU eQ eP tr =
      { result := Except.ok ((env.maximize (env.flcmiFn
            { n := eU.rows, num_queries := eQ.rows, num_privates := eP.rows,
              data_sijs := env.create_kernel eU none met,
              query_sijs := env.create_kernel eQ (some eU) met,
              private_sijs := env.create_kernel eP (some eU) met,
              magnificationEta := eta, privacyHardness := nu })
            b opt z ng vb).map Prod.fst),
        state := retainEmbeddings s keep eU eQ eP,
        trace := tr ++ [Event.kernelCall eU none met,
          Event.kernelCall eQ (some eU) met,
          Event.kernelCall eP (some eU) met,
          Event.flcmiCtor
            { n := eU.rows, num_queries := eQ.rows, num_privates := eP.rows,
              data_sijs := env.create_kernel eU none met,
              query_sijs := env.create_kernel eQ (some eU) met,
              private_sijs := env.create_kernel eP (some eU) met,
              magnificationEta := eta, privacyHardness := nu },
          Event.maximizeCall b opt z ng vb] } := by
  simp [selectBody, hf]

/-- With `scmi_function` set to `logdetcmi`, the extra kernels were never
assigned (the guard on line 158 checks the misspelled `logdetmi`), so the body
stops with an `UnboundLocalError` on `query_query_sijs` after the three base
kernels. -/
theorem selectBody_logdetcmi (env : Env) (s : SCMI) (b : Nat)
    (opt met eta nu z ng vb keep : ConfigVal) (eU eQ eP : Emb)
    (tr : List Event)
    (hf : s.args.get? "scmi_function" = some (ConfigVal.str "logdetcmi")) :
    selectBody env s b opt met eta nu z ng vb keep eU eQ eP tr =
      { result := Except.error (PyError.unboundLocalError "query_query_sijs"),
        state := retainEmbeddings s keep eU eQ eP,
        trace := tr ++ [Event.kernelCall eU none met,
          Event.kernelCall eQ (some eU) met,
          Event.kernelCall eP (some eU) met] } := by
  simp [selectBody, hf]

/-- With `scmi_function` set to the misspelled `logdetmi`, the extra kernels
are computed but no objective branch runs, so line 191 stops with an
`UnboundLocalError` on `obj`. -/
theorem selectBody_logdetmi (env : Env) (s : SCMI) (b : Nat)
    (opt met eta nu z ng vb keep : ConfigVal) (eU eQ eP : Emb)
    (tr : List Event)
    (hf : s.args.get? "scmi_function" = some (ConfigVal.str "logdetmi")) :
    selectBody env s b opt met eta nu z ng vb keep eU eQ eP tr =
      { result := Except.error (PyError.unboundLocalError "obj"),
        state := retainEmbeddings s keep eU eQ eP,
        trace := tr ++ [Event.kernelCall eU none met,
          Event.kernelCall eQ none met,
          Event.kernelCall eP none met,
          Event.kernelCall eP (some eQ) met,
          Event.kernelCall eQ (some eU) met,
          Event.kernelCall eP (some eU) met] } := by
  simp [selectBody, hf]

/-- With `scmi_function` set to any other value, no branch assigns `obj` and
line 191 stops with an `UnboundLocalError` on `obj` after the three base
kernels. -/
theorem selectBody_other (env : Env) (s : SCMI) (b : Nat)
    (opt met eta nu z ng vb keep v : ConfigVal) (eU eQ eP : Emb)
    (tr : List Event)
    (hf : s.args.get? "scmi_function" = some v)
    (h1 : v ≠ ConfigVal.str "logdetmi")
    (h2 : v ≠ ConfigVal.str "flcmi")
    (h3 : v ≠ ConfigVal.str "logdetcmi") :
    selectBody env s b opt met eta nu z ng vb keep eU eQ eP tr =
      { result := Except.error (PyError.unboundLocalError "obj"),
        state := retainEmbeddings s keep eU eQ eP,
        trace := tr ++ [Event.kernelCall eU none met,
          Event.kernelCall eQ (some eU) met,
          Event.kernelCall eP (some eU) met] } := by
  simp [selectBody, hf, h1, h2, h3]

/-- When the resolved `embedding_type` is `gradients`, `select` computes the
three gradient embeddings and continues with `selectBody`. -/
theorem select_gradients (env : Env) (s : SCMI) (b : Nat)
    (het : s.args.getD "embedding_type" (ConfigVal.str "gradients")
      = ConfigVal.str "gradients") :
    SCMI.select env s b =
      selectBody env s b
        (s.args.getD "optimizer" (ConfigVal.str "NaiveGreedy"))
        (s.args.getD "metric" (ConfigVal.str "cosine"))
        (s.args.getD "eta" (ConfigVal.num 1))
        (s.args.getD "nu" (ConfigVal.num 1))
        (s.args.getD "stopIfZeroGain" (ConfigVal.bool false))
        (s.args.getD "stopIfNegativeGain" (ConfigVal.bool false))
        (s.args.getD "verbose" (ConfigVal.bool false))
        (s.args.getD "keep_embedding" (ConfigVal.bool false))
        (env.get_grad_embedding s.unlabeled_dataset true
          (s.args.getD "gradType" (ConfigVal.str "bias_linear")))
        (env.get_grad_embedding s.query_dataset false
          (s.args.getD "gradType" (ConfigVal.str "bias_linear")))
        (env.get_grad_embedding s.private_dataset false
          (s.args.getD "gradType" (ConfigVal.str "bias_linear")))
        [Event.gradEmbed s.unlabeled_dataset true
           (s.args.getD "gradType" (ConfigVal.str "bias_linear")),
         Event.gradEmbed s.query_dataset false
           (s.args.getD "gradType" (ConfigVal.str "bias_linear")),
         Event.gradEmbed s.private_dataset false
           (s.args.getD "gradType" (ConfigVal.str "bias_linear"))] := by
  simp [SCMI.select, het]

/-- When the resolved `embedding_type` is `features`, `select` computes the
three feature embeddings and continues with `selectBody`. -/
theorem select_features (env : Env) (s : SCMI) (b : Nat)
    (het : s.args.getD "embedding_type" (ConfigVal.str "gradients")
      = ConfigVal.str "features") :
    SCMI.select env s b =
      selectBody env s b
        (s.args.getD "optimizer" (ConfigVal.str "NaiveGreedy"))
        (s.args.getD "metric" (ConfigVal.str "cosine"))
        (s.args.getD "eta" (ConfigVal.num 1))
        (s.args.getD "nu" (ConfigVal.num 1))
        (s.args.getD "stopIfZeroGain" (ConfigVal.bool false))
        (s.args.getD "stopIfNegativeGain" (ConfigVal.bool false))
        (s.args.getD "verbose" (ConfigVal.bool false))
        (s.args.getD "keep_embedding" (ConfigVal.bool false))
        (env.get_feature_embedding s.unlabeled_dataset true
          (s.args.getD "layer_name" (ConfigVal.str "avgpool")))
        (env.get_feature_embedding s.query_dataset false
          (s.args.getD "layer_name" (ConfigVal.str "avgpool")))
        (env.get_feature_embedding s.private_dataset false
          (s.args.getD "layer_name" (ConfigVal.str "avgpool")))
        [Event.featEmbed s.unlabeled_dataset true
           (s.args.getD "layer_name" (ConfigVal.str "avgpool")),
         Event.featEmbed s.query_dataset false
           (s.args.getD "layer_name" (ConfigVal.str "avgpool")),
         Event.featEmbed s.private_dataset false
           (s.args.getD "layer_name" (ConfigVal.str "avgpool"))] := by
  simp [SCMI.select, het]

/-- When the resolved `embedding_type` is neither `gradients` nor `features`,
`select` raises the `ValueError` of line 148 before any external call. -/
theorem select_badEmbedding (env : Env) (s : SCMI) (b : Nat)
    (h1 : s.args.getD "embedding_type" (ConfigVal.str "gradients")
      ≠ ConfigVal.str "gradients")
    (h2 : s.args.getD "embedding_type" (ConfigVal.str "gradients")
      ≠ ConfigVal.str "features") :
    SCMI.select env s b =
      { result := Except.error (PyError.valueError
          "Provided representation must be one of gradients or features"),
        state := s, trace := [] } := by
  simp [SCMI.select, h1, h2]

/-- The concrete environment satisfies the embedding row-count contract. -/
theorem env0_rows : EmbeddingRowsSpec env0 :=
  fun _ _ _ => ⟨rfl, rfl⟩

/-- The concrete environment satisfies the objective ground-set contract. -/
theorem env0_ground : ObjectiveGroundSpec env0 :=
  fun _ => rfl

/-- The concrete environment satisfies the maximizer contract. -/
theorem env0_max : MaximizerSpec env0 := by
  intro o b opt z ng vb
  have hm : (env0.maximize o b opt z ng vb).map Prod.fst
      = List.range (min b o.groundSetSize) := by
    simp [env0, List.map_map, Function.comp_def]
  rw [hm]
  refine ⟨?_, List.nodup_range _, ?_⟩
  · rw [List.length_range]
    exact Nat.min_le_left _ _
  · intro i hi
    have := List.mem_range.mp hi
    exact lt_of_lt_of_le this (Nat.min_le_right _ _)

/-- Every successful `select` goes through the `flcmi` branch and returns the
first components of the maximizer output for the objective built from the
resolved configuration; the final instance state is `retainEmbeddings`. -/
theorem select_ok (env : Env) (s : SCMI) (b : Nat) (l : List Nat)
    (hok : (SCMI.select env s b).result = Except.ok l) :
    s.args.get? "scmi_function" = some (ConfigVal.str "flcmi") ∧
    ∃ eU eQ eP : Emb,
      ((eU = env.get_grad_embedding s.unlabeled_dataset true
          (s.args.getD "gradType" (ConfigVal.str "bias_linear")) ∧
        eQ = env.get_grad_embedding s.query_dataset false
          (s.args.getD "gradType" (ConfigVal.str "bias_linear")) ∧
        eP = env.get_grad_embedding s.private_dataset false
          (s.args.getD "gradType" (ConfigVal.str "bias_linear"))) ∨
       (eU = env.get_feature_embedding s.unlabeled_dataset true
          (s.args.getD "layer_name" (ConfigVal.str "avgpool")) ∧
        eQ = env.get_feature_embedding s.query_dataset false
          (s.args.getD "layer_name" (ConfigVal.str "avgpool")) ∧
        eP = env.get_feature_embedding s.private_dataset false
          (s.args.getD "layer_name" (ConfigVal.str "avgpool")))) ∧
      l = (env.maximize (env.flcmiFn
            { n := eU.rows, num_queries := eQ.rows, num_privates := eP.rows,
              data_sijs := env.create_kernel eU none
                (s.args.getD "metric" (ConfigVal.str "cosine")),
              query_sijs := env.create_kernel eQ (some eU)
                (s.args.getD "metric" (ConfigVal.str "cosine")),
              private_sijs := env.create_kernel eP (some eU)
                (s.args.getD "metric" (ConfigVal.str "cosine")),
              magnificationEta := s.args.getD "eta" (ConfigVal.num 1),
              privacyHardness := s.args.getD "nu" (ConfigVal.num 1) })
            b (s.args.getD "optimizer" (ConfigVal.str "NaiveGreedy"))
            (s.args.getD "stopIfZeroGain" (ConfigVal.bool false))
            (s.args.getD "stopIfNegativeGain" (ConfigVal.bool false))
            (s.args.getD "verbose" (ConfigVal.bool false))).map Prod.fst ∧
      (SCMI.select env s b).state = retainEmbeddings s
        (s.args.getD "keep_embedding" (ConfigVal.bool false)) eU eQ eP := by
  by_cases hg : s.args.getD "embedding_type" (ConfigVal.str "gradients")
      = ConfigVal.str "gradients"
  · rw [select_gradients env s b hg] at hok ⊢
    cases hq : s.args.get? "scmi_function" with
    | none =>
        rw [selectBody_absent env s b _ _ _ _ _ _ _ _ _ _ _ _ hq] at hok
        simp at hok
    | some w =>
        by_cases h1 : w = ConfigVal.str "flcmi"
        · subst h1
          rw [selectBody_flcmi env s b _ _ _ _ _ _ _ _ _ _ _ _ hq] at hok ⊢
          simp only [Except.ok.injEq] at hok
          exact ⟨rfl, _, _, _, Or.inl ⟨rfl, rfl, rfl⟩, hok.symm, rfl⟩
        · by_cases h2 : w = ConfigVal.str "logdetcmi"
          · subst h2
            rw [selectBody_logdetcmi env s b _ _ _ _ _ _ _ _ _ _ _ _ hq] at hok
            simp at hok
          · by_cases h3 : w = ConfigVal.str "logdetmi"
            · subst h3
              rw [selectBody_logdetmi env s b _ _ _ _ _ _ _ _ _ _ _ _ hq]
                at hok
              simp at hok
            · rw [selectBody_other env s b _ _ _ _ _ _ _ _ w _ _ _ _
                hq h3 h1 h2] at hok
              simp at hok
  · by_cases hf : s.args.getD "embedding_type" (ConfigVal.str "gradients")
        = ConfigVal.str "features"
    · rw [select_features env s b hf] at hok ⊢
      cases hq : s.args.get? "scmi_function" with
      | none =>
          rw [selectBody_absent env s b _ _ _ _ _ _ _ _ _ _ _ _ hq] at hok
          simp at hok
      | some w =>
          by_cases h1 : w = ConfigVal.str "flcmi"
          · subst h1
            rw [selectBody_flcmi env s b _ _ _ _ _ _ _ _ _ _ _ _ hq] at hok ⊢
            simp only [Except.ok.injEq] at hok
            exact ⟨rfl, _, _, _, Or.inr ⟨rfl, rfl, rfl⟩, hok.symm, rfl⟩
          · by_cases h2 : w = ConfigVal.str "logdetcmi"
            · subst h2
              rw [selectBody_logdetcmi env s b _ _ _ _ _ _ _ _ _ _ _ _ hq]
                at hok
              simp at hok
            · by_cases h3 : w = ConfigVal.str "logdetmi"
              · subst h3
                rw [selectBody_logdetmi env s b _ _ _ _ _ _ _ _ _ _ _ _ hq]
                  at hok
                simp at hok
              · rw [selectBody_other env s b _ _ _ _ _ _ _ _ w _ _ _ _
                  hq h3 h1 h2] at hok
                simp at hok
    · rw [select_badEmbedding env s b hg hf] at hok
      simp at hok

/-- Whatever the configuration, the state after `select` is either untouched
or exactly a `retainEmbeddings` update of the input state. -/
theorem select_state (env : Env) (s : SCMI) (b : Nat) :
    (SCMI.select env s b).state = s ∨
    ∃ eU eQ eP, (SCMI.select env s b).state = retainEmbeddings s
      (s.args.getD "keep_embedding" (ConfigVal.bool false)) eU eQ eP := by
  by_cases hg : s.args.getD "embedding_type" (ConfigVal.str "gradients")
      = ConfigVal.str "gradients"
  · rw [select_gradients env s b hg]
    cases hq : s.args.get? "scmi_function" with
    | none =>
        rw [selectBody_absent env s b _ _ _ _ _ _ _ _ _ _ _ _ hq]
        exact Or.inr ⟨_, _, _, rfl⟩
    | some w =>
        by_cases h1 : w = ConfigVal.str "flcmi"
        · subst h1
          rw [selectBody_flcmi env s b _ _ _ _ _ _ _ _ _ _ _ _ hq]
          exact Or.inr ⟨_, _, _, rfl⟩
        · by_cases h2 : w = ConfigVal.str "logdetcmi"
          · subst h2
            rw [selectBody_logdetcmi env s b _ _ _ _ _ _ _ _ _ _ _ _ hq]
            exact Or.inr ⟨_, _, _, rfl⟩
          · by_cases h3 : w = ConfigVal.str "logdetmi"
            · subst h3
              rw [selectBody_logdetmi env s b _ _ _ _ _ _ _ _ _ _ _ _ hq]
              exact Or.inr ⟨_, _, _, rfl⟩
            · rw [selectBody_other env s b _ _ _ _ _ _ _ _ w _ _ _ _
                hq h3 h1 h2]
              exact Or.inr ⟨_, _, _, rfl⟩
  · by_cases hf : s.args.getD "embedding_type" (ConfigVal.str "gradients")
        = ConfigVal.str "features"
    · rw [select_features env s b hf]
      cases hq : s.args.get? "scmi_function" with
      | none =>
          rw [selectBody_absent env s b _ _ _ _ _ _ _ _ _ _ _ _ hq]
          exact Or.inr ⟨_, _, _, rfl⟩
      | some w =>
          by_cases h1 : w = ConfigVal.str "flcmi"
          · subst h1
            rw [selectBody_flcmi env s b _ _ _ _ _ _ _ _ _ _ _ _ hq]
            exact Or.inr ⟨_, _, _, rfl⟩
          · by_cases h2 : w = ConfigVal.str "logdetcmi"
            · subst h2
              rw [selectBody_logdetcmi env s b _ _ _ _ _ _ _ _ _ _ _ _ hq]
              exact Or.inr ⟨_, _, _, rfl⟩
            · by_cases h3 : w = ConfigVal.str "logdetmi"
              · subst h3
                rw [selectBody_logdetmi env s b _ _ _ _ _ _ _ _ _ _ _ _ hq]
                exact Or.inr ⟨_, _, _, rfl⟩
              · rw [selectBody_other env s b _ _ _ _ _ _ _ _ w _ _ _ _
                  hq h3 h1 h2]
                exact Or.inr ⟨_, _, _, rfl⟩
    · rw [select_badEmbedding env s b hg hf]
      exact Or.inl rfl

/-- C10: when `keep_embedding` is absent or resolves falsy, `select` leaves
the instance state completely unchanged; and in every case the stored state
other than the three embedding fields (datasets and `args`) is unchanged. -/
theorem C10_frame (env : Env) (s : SCMI) (b : Nat) :
    ((SCMI.select env s b).state.labeled_dataset = s.labeled_dataset ∧
     (SCMI.select env s b).state.unlabeled_dataset = s.unlabeled_dataset ∧
     (SCMI.select env s b).state.query_dataset = s.query_dataset ∧
     (SCMI.select env s b).state.private_dataset = s.private_dataset ∧
     (SCMI.select env s b).state.args = s.args) ∧
    ((s.args.getD "keep_embedding" (ConfigVal.bool false)).truthy = false →
      (SCMI.select env s b).state = s) := by
  rcases select_state env s b with h | ⟨eU, eQ, eP, h⟩
  · rw [h]
    exact ⟨⟨rfl, rfl, rfl, rfl, rfl⟩, fun _ => rfl⟩
  · rw [h]
    constructor
    · by_cases hk :
          (s.args.getD "keep_embedding" (ConfigVal.bool false)).truthy <;>
        simp [retainEmbeddings, hk]
    · intro hk
      simp [retainEmbeddings, hk]

/-- C10 witness: on a concrete configuration without `keep_embedding`, the
instance state is unchanged by `select`. -/
theorem C10_frame_witness :
    (SCMI.select env0 (mkSCMI [("scmi_function", ConfigVal.str "flcmi")])
      2).state = mkSCMI [("scmi_function", ConfigVal.str "flcmi")] :=
  (C10_frame env0 (mkSCMI [("scmi_function", ConfigVal.str "flcmi")]) 2).2
    (by decide)

/-- C3: with `embedding_type` set to a value other than `gradients` or
`features`, `select` raises the `ValueError` of line 148 and makes no external
call at all — in particular no embedding is computed. -/
theorem C3_badEmbeddingType (env : Env) (s : SCMI) (b : Nat) (v : ConfigVal)
    (hv : s.args.get? "embedding_type" = some v)
    (h1 : v ≠ ConfigVal.str "gradients") (h2 : v ≠ ConfigVal.str "features") :
    (SCMI.select env s b).result = Except.error (PyError.valueError
      "Provided representation must be one of gradients or features") ∧
    (SCMI.select env s b).trace = [] := by
  have hd : s.args.getD "embedding_type" (ConfigVal.str "gradients") = v := by
    simp [Config.getD, hv]
  rw [select_badEmbedding env s b (by rw [hd]; exact h1)
    (by rw [hd]; exact h2)]
  exact ⟨rfl, rfl⟩

/-- C3 witness: concrete run with `embedding_type` set to `bogus`. -/
theorem C3_badEmbeddingType_witness :
    (SCMI.select env0
        (mkSCMI [("embedding_type", ConfigVal.str "bogus")]) 2).result
      = Except.error (PyError.valueError
        "Provided representation must be one of gradients or features") :=
  (C3_badEmbeddingType env0
    (mkSCMI [("embedding_type", ConfigVal.str "bogus")]) 2
    (ConfigVal.str "bogus") (by decide) (by decide) (by decide)).1

/-- C9: the `embedding_type` check on lines 139-148 precedes any access to
`scmi_function`, so when both are unsupported (or `scmi_function` is absent)
the error raised is the unsupported-embedding-type `ValueError`, not an error
about `scmi_function`. -/
theorem C9_embeddingCheckFirst (env : Env) (s : SCMI) (b : Nat)
    (v : ConfigVal)
    (hv : s.args.get? "embedding_type" = some v)
    (h1 : v ≠ ConfigVal.str "gradients") (h2 : v ≠ ConfigVal.str "features")
    (hs : s.args.get? "scmi_function" = none ∨
      ∃ w, s.args.get? "scmi_function" = some w ∧
        w ≠ ConfigVal.str "flcmi" ∧ w ≠ ConfigVal.str "logdetcmi") :
    (SCMI.select env s b).result = Except.error (PyError.valueError
      "Provided representation must be one of gradients or features") := by
  have hd : s.args.getD "embedding_type" (ConfigVal.str "gradients") = v := by
    simp [Config.getD, hv]
  rw [select_badEmbedding env s b (by rw [hd]; exact h1)
    (by rw [hd]; exact h2)]

/-- C9 witness: concrete run with `embedding_type` set to `bogus` and
`scmi_function` absent. -/
theorem C9_embeddingCheckFirst_witness :
    (SCMI.select env0
        (mkSCMI [("embedding_type", ConfigVal.str "bogus")]) 3).result
      = Except.error (PyError.valueError
        "Provided representation must be one of gradients or features") :=
  C9_embeddingCheckFirst env0
    (mkSCMI [("embedding_type", ConfigVal.str "bogus")]) 3
    (ConfigVal.str "bogus") (by decide) (by decide) (by decide)
    (Or.inl (by decide))

/-- C1 counterexample: with `scmi_function` absent, `select` raises only a
`KeyError`, and only after the unlabeled-unlabeled similarity kernel has been
computed — contradicting "a configuration error before any similarity kernel
is computed". -/
theorem C1_counterexample :
    (SCMI.select env0 (mkSCMI []) 2).result
        = Except.error (PyError.keyError "scmi_function") ∧
      Event.kernelCall { rows := 5, tag := 1 } none (ConfigVal.str "cosine")
        ∈ (SCMI.select env0 (mkSCMI []) 2).trace := by
  decide

/-- C1 (amended): with a supported embedding type, the cases map as follows:
when `scmi_function` is absent `select` raises `KeyError` on the dictionary
access of line 158, and when it is set to a string other than `flcmi` or
`logdetcmi` `select` raises `UnboundLocalError` on `obj` at line 191; in each
case at least one similarity kernel has already been computed, and
maximization never runs. -/
theorem C1_amended (env : Env) (s : SCMI) (b : Nat)
    (het : s.args.getD "embedding_type" (ConfigVal.str "gradients")
        = ConfigVal.str "gradients" ∨
      s.args.getD "embedding_type" (ConfigVal.str "gradients")
        = ConfigVal.str "features") :
    (s.args.get? "scmi_function" = none →
      (SCMI.select env s b).result
          = Except.error (PyError.keyError "scmi_function") ∧
      (∃ x xr m, Event.kernelCall x xr m ∈ (SCMI.select env s b).trace) ∧
      (∀ bud o z ng vb,
        Event.maximizeCall bud o z ng vb ∉ (SCMI.select env s b).trace)) ∧
    (∀ w, s.args.get? "scmi_function" = some w →
      w ≠ ConfigVal.str "flcmi" → w ≠ ConfigVal.str "logdetcmi" →
      (SCMI.select env s b).result
          = Except.error (PyError.unboundLocalError "obj") ∧
      (∃ x xr m, Event.kernelCall x xr m ∈ (SCMI.select env s b).trace) ∧
      (∀ bud o z ng vb,
        Event.maximizeCall bud o z ng vb ∉ (SCMI.select env s b).trace)) := by
  rcases het with hg | hft
  · rw [select_gradients env s b hg]
    constructor
    · intro hnone
      rw [selectBody_absent env s b _ _ _ _ _ _ _ _ _ _ _ _ hnone]
      refine ⟨rfl,
        ⟨_, _, _, List.mem_append_right _ (List.mem_singleton_self _)⟩, ?_⟩
      intro bud o z ng vb hmem
      simp at hmem
    · intro w hsome hw1 hw2
      by_cases hw3 : w = ConfigVal.str "logdetmi"
      · subst hw3
        rw [selectBody_logdetmi env s b _ _ _ _ _ _ _ _ _ _ _ _ hsome]
        refine ⟨rfl,
          ⟨_, _, _, List.mem_append_right _ (List.mem_cons_self _ _)⟩, ?_⟩
        intro bud o z ng vb hmem
        simp at hmem
      · rw [selectBody_other env s b _ _ _ _ _ _ _ _ w _ _ _ _
          hsome hw3 hw1 hw2]
        refine ⟨rfl,
          ⟨_, _, _, List.mem_append_right _ (List.mem_cons_self _ _)⟩, ?_⟩
        intro bud o z ng vb hmem
        simp at hmem
  · rw [select_features env s b hft]
    constructor
    · intro hnone
      rw [selectBody_absent env s b _ _ _ _ _ _ _ _ _ _ _ _ hnone]
      refine ⟨rfl,
        ⟨_, _, _, List.mem_append_right _ (List.mem_singleton_self _)⟩, ?_⟩
      intro bud o z ng vb hmem
      simp at hmem
    · intro w hsome hw1 hw2
      by_cases hw3 : w = ConfigVal.str "logdetmi"
      · subst hw3
        rw [selectBody_logdetmi env s b _ _ _ _ _ _ _ _ _ _ _ _ hsome]
        refine ⟨rfl,
          ⟨_, _, _, List.mem_append_right _ (List.mem_cons_self _ _)⟩, ?_⟩
        intro bud o z ng vb hmem
        simp at hmem
      · rw [selectBody_other env s b _ _ _ _ _ _ _ _ w _ _ _ _
          hsome hw3 hw1 hw2]
        refine ⟨rfl,
          ⟨_, _, _, List.mem_append_right _ (List.mem_cons_self _ _)⟩, ?_⟩
        intro bud o z ng vb hmem
        simp at hmem

/-- C1 witness: both cases concretely — with `scmi_function` absent the
result is the `KeyError`, and with `scmi_function` set to the unsupported
string `bogus` the result is the `UnboundLocalError` on `obj`. -/
theorem C1_amended_witness :
    (SCMI.select env0 (mkSCMI []) 3).result
        = Except.error (PyError.keyError "scmi_function") ∧
      (SCMI.select env0
          (mkSCMI [("scmi_function", ConfigVal.str "bogus")]) 3).result
        = Except.error (PyError.unboundLocalError "obj") :=
  ⟨((C1_amended env0 (mkSCMI []) 3 (Or.inl (by decide))).1 (by decide)).1,
   ((C1_amended env0 (mkSCMI [("scmi_function", ConfigVal.str "bogus")]) 3
      (Or.inl (by decide))).2 (ConfigVal.str "bogus") (by decide)
      (by decide) (by decide)).1⟩

/-- C2: with `scmi_function` set to `logdetcmi`, the guard on line 158 checks
the misspelled `logdetmi`, so the three extra kernels are never computed and
the constructor call on lines 178-189 raises `UnboundLocalError` on
`query_query_sijs`: the trace holds exactly the three embedding calls and the
three base kernels, and `select` raises instead of returning. -/
theorem C2_logdetcmiCrash :
    SCMI.select env0 (mkSCMI [("scmi_function", ConfigVal.str "logdetcmi")]) 1
      = { result :=
            Except.error (PyError.unboundLocalError "query_query_sijs"),
          state := mkSCMI [("scmi_function", ConfigVal.str "logdetcmi")],
          trace := [
            Event.gradEmbed dsUnlabeled true (ConfigVal.str "bias_linear"),
            Event.gradEmbed dsQuery false (ConfigVal.str "bias_linear"),
            Event.gradEmbed dsPrivate false (ConfigVal.str "bias_linear"),
            Event.kernelCall { rows := 5, tag := 1 } none
              (ConfigVal.str "cosine"),
            Event.kernelCall { rows := 3, tag := 2 }
              (some { rows := 5, tag := 1 }) (ConfigVal.str "cosine"),
            Event.kernelCall { rows := 2, tag := 3 }
              (some { rows := 5, tag := 1 }) (ConfigVal.str "cosine")] } := by
  decide

/-- C4: under the external contracts (embedding row counts, objective ground
set, maximizer output), every successful `select` with a valid positive
budget returns at most `budget` pairwise distinct indices, each a valid index
into the unlabeled dataset. -/
theorem C4_selectionValid (env : Env) (s : SCMI) (b : Nat) (l : List Nat)
    (hrows : EmbeddingRowsSpec env) (hground : ObjectiveGroundSpec env)
    (hmax : MaximizerSpec env)
    (hb : 0 < b ∧ b ≤ s.unlabeled_dataset.size)
    (hok : (SCMI.select env s b).result = Except.ok l) :
    l.length ≤ b ∧ l.Nodup ∧ ∀ i ∈ l, i < s.unlabeled_dataset.size := by
  obtain ⟨-, eU, eQ, eP, hcase, hl, -⟩ := select_ok env s b l hok
  have hrowU : eU.rows = s.unlabeled_dataset.size := by
    rcases hcase with ⟨h, -, -⟩ | ⟨h, -, -⟩
    · rw [h]; exact (hrows _ _ _).1
    · rw [h]; exact (hrows _ _ _).2
  rw [hl]
  obtain ⟨hlen, hnd, hlt⟩ := hmax (env.flcmiFn
    { n := eU.rows, num_queries := eQ.rows, num_privates := eP.rows,
      data_sijs := env.create_kernel eU none
        (s.args.getD "metric" (ConfigVal.str "cosine")),
      query_sijs := env.create_kernel eQ (some eU)
        (s.args.getD "metric" (ConfigVal.str "cosine")),
      private_sijs := env.create_kernel eP (some eU)
        (s.args.getD "metric" (ConfigVal.str "cosine")),
      magnificationEta := s.args.getD "eta" (ConfigVal.num 1),
      privacyHardness := s.args.getD "nu" (ConfigVal.num 1) })
    b (s.args.getD "optimizer" (ConfigVal.str "NaiveGreedy"))
    (s.args.getD "stopIfZeroGain" (ConfigVal.bool false))
    (s.args.getD "stopIfNegativeGain" (ConfigVal.bool false))
    (s.args.getD "verbose" (ConfigVal.bool false))
  refine ⟨hlen, hnd, ?_⟩
  intro i hi
  have h1 := hlt i hi
  rw [hground
    { n := eU.rows, num_queries := eQ.rows, num_privates := eP.rows,
      data_sijs := env.create_kernel eU none
        (s.args.getD "metric" (ConfigVal.str "cosine")),
      query_sijs := env.create_kernel eQ (some eU)
        (s.args.getD "metric" (ConfigVal.str "cosine")),
      private_sijs := env.create_kernel eP (some eU)
        (s.args.getD "metric" (ConfigVal.str "cosine")),
      magnificationEta := s.args.getD "eta" (ConfigVal.num 1),
      privacyHardness := s.args.getD "nu" (ConfigVal.num 1) }] at h1
  rw [← hrowU]
  exact h1

/-- C4 witness: a concrete successful run at budget 2 over 5 unlabeled
examples. -/
theorem C4_selectionValid_witness :
    ([0, 1] : List Nat).length ≤ 2 ∧ ([0, 1] : List Nat).Nodup := by
  have h := C4_selectionValid env0
    (mkSCMI [("scmi_function", ConfigVal.str "flcmi")]) 2 [0, 1]
    env0_rows env0_ground env0_max ⟨by decide, by decide⟩ (by decide)
  exact ⟨h.1, h.2.1⟩

/-- C5: with `keep_embedding` truthy, after a successful `select` the three
embedding matrices are retained on the instance, each with row count equal to
its source dataset size (embedding row counts per the spec contract). -/
theorem C5_keepEmbedding (env : Env) (s : SCMI) (b : Nat) (l : List Nat)
    (hrows : EmbeddingRowsSpec env)
    (hkeep : (s.args.getD "keep_embedding" (ConfigVal.bool false)).truthy
      = true)
    (hok : (SCMI.select env s b).result = Except.ok l) :
    ((SCMI.select env s b).state.unlabeled_data_embedding).map Emb.rows
        = some s.unlabeled_dataset.size ∧
      ((SCMI.select env s b).state.query_embedding).map Emb.rows
        = some s.query_dataset.size ∧
      ((SCMI.select env s b).state.private_embedding).map Emb.rows
        = some s.private_dataset.size := by
  obtain ⟨-, eU, eQ, eP, hcase, -, hstate⟩ := select_ok env s b l hok
  have hrs : eU.rows = s.unlabeled_dataset.size ∧
      eQ.rows = s.query_dataset.size ∧ eP.rows = s.private_dataset.size := by
    rcases hcase with ⟨h1, h2, h3⟩ | ⟨h1, h2, h3⟩
    · exact ⟨by rw [h1]; exact (hrows _ _ _).1,
        by rw [h2]; exact (hrows _ _ _).1,
        by rw [h3]; exact (hrows _ _ _).1⟩
    · exact ⟨by rw [h1]; exact (hrows _ _ _).2,
        by rw [h2]; exact (hrows _ _ _).2,
        by rw [h3]; exact (hrows _ _ _).2⟩
  rw [hstate]
  simp [retainEmbeddings, hkeep, hrs.1, hrs.2.1, hrs.2.2]

/-- C5 witness: a concrete run with `keep_embedding` set, checking the stored
row counts 5, 3 and 2. -/
theorem C5_keepEmbedding_witness :
    ((SCMI.select env0 (mkSCMI [("scmi_function", ConfigVal.str "flcmi"), ("keep_embedding", ConfigVal.bool true)]) 2).state.unlabeled_data_embedding).map Emb.rows = some 5 ∧
      ((SCMI.select env0 (mkSCMI [("scmi_function", ConfigVal.str "flcmi"), ("keep_embedding", ConfigVal.bool true)]) 2).state.query_embedding).map Emb.rows = some 3 ∧
      ((SCMI.select env0 (mkSCMI [("scmi_function", ConfigVal.str "flcmi"), ("keep_embedding", ConfigVal.bool true)]) 2).state.private_embedding).map Emb.rows = some 2 :=
  C5_keepEmbedding env0 (mkSCMI [("scmi_function", ConfigVal.str "flcmi"),
    ("keep_embedding", ConfigVal.bool true)]) 2 [0, 1]
    env0_rows (by decide) (by decide)

/-- C6: every successful `select` returns exactly the first components of the
ordered pair list produced by the maximizer, with no filtering, reordering,
or additions. -/
theorem C6_indicesFromMaximizer (env : Env) (s : SCMI) (b : Nat)
    (l : List Nat)
    (hok : (SCMI.select env s b).result = Except.ok l) :
    ∃ o opt z ng vb, l = (env.maximize o b opt z ng vb).map Prod.fst := by
  obtain ⟨-, eU, eQ, eP, -, hl, -⟩ := select_ok env s b l hok
  exact ⟨_, _, _, _, _, hl⟩

/-- C6 witness: a concrete successful run returning `[0, 1]`. -/
theorem C6_indicesFromMaximizer_witness :
    ∃ o opt z ng vb,
      ([0, 1] : List Nat) = (env0.maximize o 2 opt z ng vb).map Prod.fst :=
  C6_indicesFromMaximizer env0
    (mkSCMI [("scmi_function", ConfigVal.str "flcmi")]) 2 [0, 1] (by decide)

/-- C7: every optional configuration key absent from `args` resolves to its
documented default (second through last conjuncts), and the resolved defaults
are exactly the values passed to the embedding, kernel, objective and
maximizer calls (first conjunct: the full run under defaults, whose trace
records every argument passed). -/
theorem C7_defaults (env : Env) (s : SCMI) (b : Nat)
    (habs : ∀ k ∈ ["optimizer", "metric", "eta", "nu", "lambdaVal",
      "embedding_type", "gradType", "layer_name", "stopIfZeroGain",
      "stopIfNegativeGain", "keep_embedding", "verbose"],
      s.args.get? k = none)
    (hfl : s.args.get? "scmi_function" = some (ConfigVal.str "flcmi")) :
    SCMI.select env s b =
      { result := Except.ok ((env.maximize (env.flcmiFn
          { n := (env.get_grad_embedding s.unlabeled_dataset true (ConfigVal.str "bias_linear")).rows,
            num_queries := (env.get_grad_embedding s.query_dataset false (ConfigVal.str "bias_linear")).rows,
            num_privates := (env.get_grad_embedding s.private_dataset false (ConfigVal.str "bias_linear")).rows,
            data_sijs := env.create_kernel (env.get_grad_embedding s.unlabeled_dataset true (ConfigVal.str "bias_linear")) none (ConfigVal.str "cosine"),
            query_sijs := env.create_kernel (env.get_grad_embedding s.query_dataset false (ConfigVal.str "bias_linear")) (some (env.get_grad_embedding s.unlabeled_dataset true (ConfigVal.str "bias_linear"))) (ConfigVal.str "cosine"),
            private_sijs := env.create_kernel (env.get_grad_embedding s.private_dataset false (ConfigVal.str "bias_linear")) (some (env.get_grad_embedding s.unlabeled_dataset true (ConfigVal.str "bias_linear"))) (ConfigVal.str "cosine"),
            magnificationEta := ConfigVal.num 1,
            privacyHardness := ConfigVal.num 1 })
          b (ConfigVal.str "NaiveGreedy") (ConfigVal.bool false) (ConfigVal.bool false) (ConfigVal.bool false)).map Prod.fst),
        state := s,
        trace := [Event.gradEmbed s.unlabeled_dataset true (ConfigVal.str "bias_linear"),
          Event.gradEmbed s.query_dataset false (ConfigVal.str "bias_linear"),
          Event.gradEmbed s.private_dataset false (ConfigVal.str "bias_linear"),
          Event.kernelCall (env.get_grad_embedding s.unlabeled_dataset true (ConfigVal.str "bias_linear")) none (ConfigVal.str "cosine"),
          Event.kernelCall (env.get_grad_embedding s.query_dataset false (ConfigVal.str "bias_linear")) (some (env.get_grad_embedding s.unlabeled_dataset true (ConfigVal.str "bias_linear"))) (ConfigVal.str "cosine"),
          Event.kernelCall (env.get_grad_embedding s.private_dataset false (ConfigVal.str "bias_linear")) (some (env.get_grad_embedding s.unlabeled_dataset true (ConfigVal.str "bias_linear"))) (ConfigVal.str "cosine"),
          Event.flcmiCtor
            { n := (env.get_grad_embedding s.unlabeled_dataset true (ConfigVal.str "bias_linear")).rows,
              num_queries := (env.get_grad_embedding s.query_dataset false (ConfigVal.str "bias_linear")).rows,
              num_privates := (env.get_grad_embedding s.private_dataset false (ConfigVal.str "bias_linear")).rows,
              data_sijs := env.create_kernel (env.get_grad_embedding s.unlabeled_dataset true (ConfigVal.str "bias_linear")) none (ConfigVal.str "cosine"),
              query_sijs := env.create_kernel (env.get_grad_embedding s.query_dataset false (ConfigVal.str "bias_linear")) (some (env.get_grad_embedding s.unlabeled_dataset true (ConfigVal.str "bias_linear"))) (ConfigVal.str "cosine"),
              private_sijs := env.create_kernel (env.get_grad_embedding s.private_dataset false (ConfigVal.str "bias_linear")) (some (env.get_grad_embedding s.unlabeled_dataset true (ConfigVal.str "bias_linear"))) (ConfigVal.str "cosine"),
              magnificationEta := ConfigVal.num 1,
              privacyHardness := ConfigVal.num 1 },
          Event.maximizeCall b (ConfigVal.str "NaiveGreedy") (ConfigVal.bool false) (ConfigVal.bool false) (ConfigVal.bool false)] } ∧
    s.args.getD "optimizer" (ConfigVal.str "NaiveGreedy") = ConfigVal.str "NaiveGreedy" ∧
    s.args.getD "metric" (ConfigVal.str "cosine") = ConfigVal.str "cosine" ∧
    s.args.getD "eta" (ConfigVal.num 1) = ConfigVal.num 1 ∧
    s.args.getD "nu" (ConfigVal.num 1) = ConfigVal.num 1 ∧
    s.args.getD "lambdaVal" (ConfigVal.num 1) = ConfigVal.num 1 ∧
    s.args.getD "embedding_type" (ConfigVal.str "gradients") = ConfigVal.str "gradients" ∧
    s.args.getD "gradType" (ConfigVal.str "bias_linear") = ConfigVal.str "bias_linear" ∧
    s.args.getD "layer_name" (ConfigVal.str "avgpool") = ConfigVal.str "avgpool" ∧
    s.args.getD "stopIfZeroGain" (ConfigVal.bool false) = ConfigVal.bool false ∧
    s.args.getD "stopIfNegativeGain" (ConfigVal.bool false) = ConfigVal.bool false ∧
    s.args.getD "keep_embedding" (ConfigVal.bool false) = ConfigVal.bool false ∧
    s.args.getD "verbose" (ConfigVal.bool false) = ConfigVal.bool false := by
  have h1 : s.args.getD "optimizer" (ConfigVal.str "NaiveGreedy") = ConfigVal.str "NaiveGreedy" := by
    simp [Config.getD, habs "optimizer" (by simp)]
  have h2 : s.args.getD "metric" (ConfigVal.str "cosine") = ConfigVal.str "cosine" := by
    simp [Config.getD, habs "metric" (by simp)]
  have h3 : s.args.getD "eta" (ConfigVal.num 1) = ConfigVal.num 1 := by
    simp [Config.getD, habs "eta" (by simp)]
  have h4 : s.args.getD "nu" (ConfigVal.num 1) = ConfigVal.num 1 := by
    simp [Config.getD, habs "nu" (by simp)]
  have h5 : s.args.getD "lambdaVal" (ConfigVal.num 1) = ConfigVal.num 1 := by
    simp [Config.getD, habs "lambdaVal" (by simp)]
  have h6 : s.args.getD "embedding_type" (ConfigVal.str "gradients") = ConfigVal.str "gradients" := by
    simp [Config.getD, habs "embedding_type" (by simp)]
  have h7 : s.args.getD "gradType" (ConfigVal.str "bias_linear") = ConfigVal.str "bias_linear" := by
    simp [Config.getD, habs "gradType" (by simp)]
  have h8 : s.args.getD "layer_name" (ConfigVal.str "avgpool") = ConfigVal.str "avgpool" := by
    simp [Config.getD, habs "layer_name" (by simp)]
  have h9 : s.args.getD "stopIfZeroGain" (ConfigVal.bool false) = ConfigVal.bool false := by
    simp [Config.getD, habs "stopIfZeroGain" (by simp)]
  have h10 : s.args.getD "stopIfNegativeGain" (ConfigVal.bool false) = ConfigVal.bool false := by
    simp [Config.getD, habs "stopIfNegativeGain" (by simp)]
  have h11 : s.args.getD "keep_embedding" (ConfigVal.bool false) = ConfigVal.bool false := by
    simp [Config.getD, habs "keep_embedding" (by simp)]
  have h12 : s.args.getD "verbose" (ConfigVal.bool false) = ConfigVal.bool false := by
    simp [Config.getD, habs "verbose" (by simp)]
  refine ⟨?_, h1, h2, h3, h4, h5, h6, h7, h8, h9, h10, h11, h12⟩
  rw [select_gradients env s b h6]
  rw [selectBody_flcmi env s b _ _ _ _ _ _ _ _ _ _ _ _ hfl]
  rw [h1, h2, h3, h4, h7, h9, h10, h11, h12]
  simp [retainEmbeddings, ConfigVal.truthy]

/-- C7 witness: the concrete default run records the default arguments in its
trace. -/
theorem C7_defaults_witness :
    (SCMI.select env0 (mkSCMI [("scmi_function", ConfigVal.str "flcmi")]) 2).trace =
      [Event.gradEmbed dsUnlabeled true (ConfigVal.str "bias_linear"),
       Event.gradEmbed dsQuery false (ConfigVal.str "bias_linear"),
       Event.gradEmbed dsPrivate false (ConfigVal.str "bias_linear"),
       Event.kernelCall { rows := 5, tag := 1 } none (ConfigVal.str "cosine"),
       Event.kernelCall { rows := 3, tag := 2 } (some { rows := 5, tag := 1 }) (ConfigVal.str "cosine"),
       Event.kernelCall { rows := 2, tag := 3 } (some { rows := 5, tag := 1 }) (ConfigVal.str "cosine"),
       Event.flcmiCtor
         { n := 5, num_queries := 3, num_privates := 2,
           data_sijs := { tag := 1 }, query_sijs := { tag := 1002 },
           private_sijs := { tag := 1003 },
           magnificationEta := ConfigVal.num 1,
           privacyHardness := ConfigVal.num 1 },
       Event.maximizeCall 2 (ConfigVal.str "NaiveGreedy")
         (ConfigVal.bool false) (ConfigVal.bool false)
         (ConfigVal.bool false)] := by
  have h := C7_defaults env0
    (mkSCMI [("scmi_function", ConfigVal.str "flcmi")]) 2
    (by decide) (by decide)
  rw [h.1]
  decide

/-- C8: with `scmi_function` set to `flcmi`, the key `lambdaVal` is never
read: two strategy instances whose configurations agree on every key except
`lambdaVal` produce the same result, the same trace of external calls, and
the same embedding-field effects. -/
theorem C8_lambdaValNoninterference (env : Env) (s : SCMI) (b : Nat)
    (c2 : Config)
    (hagree : ∀ k, k ≠ "lambdaVal" → s.args.get? k = c2.get? k)
    (hfl : s.args.get? "scmi_function" = some (ConfigVal.str "flcmi")) :
    (SCMI.select env s b).result = (SCMI.select env { s with args := c2 } b).result ∧
    (SCMI.select env s b).trace = (SCMI.select env { s with args := c2 } b).trace ∧
    (SCMI.select env s b).state.unlabeled_data_embedding = (SCMI.select env { s with args := c2 } b).state.unlabeled_data_embedding ∧
    (SCMI.select env s b).state.query_embedding = (SCMI.select env { s with args := c2 } b).state.query_embedding ∧
    (SCMI.select env s b).state.private_embedding = (SCMI.select env { s with args := c2 } b).state.private_embedding := by
  have hgd : ∀ k d, k ≠ "lambdaVal" → s.args.getD k d = c2.getD k d := by
    intro k d hk
    unfold Config.getD
    rw [hagree k hk]
  have hargs : ({ s with args := c2 } : SCMI).args = c2 := rfl
  have hfl2 : ({ s with args := c2 } : SCMI).args.get? "scmi_function"
      = some (ConfigVal.str "flcmi") := by
    rw [hargs, ← hagree "scmi_function" (by decide)]
    exact hfl
  by_cases hg : s.args.getD "embedding_type" (ConfigVal.str "gradients")
      = ConfigVal.str "gradients"
  · have hg2 : ({ s with args := c2 } : SCMI).args.getD "embedding_type"
        (ConfigVal.str "gradients") = ConfigVal.str "gradients" := by
      rw [hargs, ← hgd "embedding_type" _ (by decide)]
      exact hg
    rw [select_gradients env s b hg,
      select_gradients env { s with args := c2 } b hg2]
    rw [selectBody_flcmi env s b _ _ _ _ _ _ _ _ _ _ _ _ hfl,
      selectBody_flcmi env { s with args := c2 } b _ _ _ _ _ _ _ _ _ _ _ _
        hfl2]
    rw [hargs]
    rw [hgd "optimizer" _ (by decide), hgd "metric" _ (by decide),
      hgd "eta" _ (by decide), hgd "nu" _ (by decide),
      hgd "gradType" _ (by decide), hgd "stopIfZeroGain" _ (by decide),
      hgd "stopIfNegativeGain" _ (by decide), hgd "verbose" _ (by decide),
      hgd "keep_embedding" _ (by decide)]
    refine ⟨by simp, by simp, ?_, ?_, ?_⟩ <;>
      by_cases hk : (c2.getD "keep_embedding" (ConfigVal.bool false)).truthy <;>
        simp [retainEmbeddings, hk]
  · by_cases hft : s.args.getD "embedding_type" (ConfigVal.str "gradients")
        = ConfigVal.str "features"
    · have hf2 : ({ s with args := c2 } : SCMI).args.getD "embedding_type"
          (ConfigVal.str "gradients") = ConfigVal.str "features" := by
        rw [hargs, ← hgd "embedding_type" _ (by decide)]
        exact hft
      rw [select_features env s b hft,
        select_features env { s with args := c2 } b hf2]
      rw [selectBody_flcmi env s b _ _ _ _ _ _ _ _ _ _ _ _ hfl,
        selectBody_flcmi env { s with args := c2 } b _ _ _ _ _ _ _ _ _ _ _ _
          hfl2]
      rw [hargs]
      rw [hgd "optimizer" _ (by decide), hgd "metric" _ (by decide),
        hgd "eta" _ (by decide), hgd "nu" _ (by decide),
        hgd "layer_name" _ (by decide), hgd "stopIfZeroGain" _ (by decide),
        hgd "stopIfNegativeGain" _ (by decide), hgd "verbose" _ (by decide),
        hgd "keep_embedding" _ (by decide)]
      refine ⟨by simp, by simp, ?_, ?_, ?_⟩ <;>
        by_cases hk : (c2.getD "keep_embedding" (ConfigVal.bool false)).truthy <;>
          simp [retainEmbeddings, hk]
    · have hg2 : ({ s with args := c2 } : SCMI).args.getD "embedding_type"
          (ConfigVal.str "gradients") ≠ ConfigVal.str "gradients" := by
        rw [hargs, ← hgd "embedding_type" _ (by decide)]
        exact hg
      have hf2 : ({ s with args := c2 } : SCMI).args.getD "embedding_type"
          (ConfigVal.str "gradients") ≠ ConfigVal.str "features" := by
        rw [hargs, ← hgd "embedding_type" _ (by decide)]
        exact hft
      rw [select_badEmbedding env s b hg hft,
        select_badEmbedding env { s with args := c2 } b hg2 hf2]
      exact ⟨rfl, rfl, rfl, rfl, rfl⟩

/-- C8 witness: two concrete configurations differing only in `lambdaVal`
give the same result. -/
theorem C8_lambdaValNoninterference_witness :
    (SCMI.select env0 (mkSCMI [("scmi_function", ConfigVal.str "flcmi"), ("lambdaVal", ConfigVal.num 7)]) 2).result
      = (SCMI.select env0 { mkSCMI [("scmi_function", ConfigVal.str "flcmi"), ("lambdaVal", ConfigVal.num 7)] with args := Config.mk [("scmi_function", ConfigVal.str "flcmi"), ("lambdaVal", ConfigVal.num 9)] } 2).result := by
  have h := C8_lambdaValNoninterference env0
    (mkSCMI [("scmi_function", ConfigVal.str "flcmi"),
      ("lambdaVal", ConfigVal.num 7)]) 2
    (Config.mk [("scmi_function", ConfigVal.str "flcmi"),
      ("lambdaVal", ConfigVal.num 9)])
    ?_ (by decide)
  · exact h.1
  · intro k hk
    by_cases h1 : k = "scmi_function"
    · subst h1
      rfl
    · simp [mkSCMI, Config.get?, List.find?, Ne.symm h1, Ne.symm hk]
